import Mathlib

/-!
Verification development for the rehash (deal-structuring) engine of the
repository: shared/rehash.ts, shared/deals.ts, shared/lenders.ts and
shared/bankFirstTriage.ts, shallowly embedded in Lean 4.

Conventions of the embedding:
* JavaScript numbers are modelled as exact rationals (`ℚ`); integral
  quantities (years, mileage, rounded book values) as `ℤ`.
* `new Date().getFullYear()` is an ambient input of the original code; every
  function that reads it takes an explicit `currentYear : ℤ` parameter.
* JavaScript division by zero yields the junk value `0` of rational division;
  all code paths the claims touch are guarded in the source.
* Fallible lookups are `Option`; the `forEach`/push loops become
  `flatMap`/`filterMap`; the in-place stable `Array.prototype.sort` becomes
  the stable `List.insertionSort` on the comparator-induced total preorder.
-/

/-! ### JavaScript number/string helpers -/

/-- Math.round: round half toward positive infinity. -/
def jsRound (q : ℚ) : ℤ := ⌊q + 1/2⌋

/-- String.prototype.toLowerCase (ASCII range, which covers all makes used). -/
def jsToLower (s : String) : String := ⟨s.data.map Char.toLower⟩

/-- String.prototype.trim. -/
def jsTrim (s : String) : String :=
  ⟨((s.data.dropWhile Char.isWhitespace).reverse.dropWhile Char.isWhitespace).reverse⟩

/-- Number.prototype.toFixed d: decimal string with d fraction digits,
rounding half away from zero (sign handled separately, as in ECMA-262). -/
def jsToFixed (d : ℕ) (q : ℚ) : String :=
  let sign := if q < 0 then "-" else ""
  let m : ℕ := (⌊|q| * (10 : ℚ) ^ d + 1/2⌋).toNat
  if d = 0 then sign ++ toString m
  else
    let ip := m / 10 ^ d
    let fp := m % 10 ^ d
    let fs := toString fp
    let pad : String := ⟨List.replicate (d - fs.length) '0'⟩
    sign ++ toString ip ++ "." ++ pad ++ fs

/-- Insert thousands separators into a reversed digit list; `n` counts the
digits already processed. -/
def insertCommasRev : List Char → ℕ → List Char
  | [], _ => []
  | c :: cs, n =>
    if n % 3 = 0 ∧ n ≠ 0 then ',' :: c :: insertCommasRev cs (n + 1)
    else c :: insertCommasRev cs (n + 1)

/-- Number.prototype.toLocaleString for integers (default en-US grouping). -/
def jsIntToLocaleString (z : ℤ) : String :=
  (if z < 0 then "-" else "") ++ ⟨(insertCommasRev (toString z.natAbs).data.reverse 0).reverse⟩

/-- Number.prototype.toLocaleString for general numbers: grouping plus at most
three fraction digits (the en-US default), trailing zeros dropped. -/
def jsRatToLocaleString (q : ℚ) : String :=
  let sign := if q < 0 then "-" else ""
  let scaled : ℕ := (⌊|q| * 1000 + 1/2⌋).toNat
  let ip := scaled / 1000
  let fp := scaled % 1000
  let ipStr := ⟨(insertCommasRev (toString ip).data.reverse 0).reverse⟩
  if fp = 0 then sign ++ ipStr
  else
    let fs := toString fp
    let pad : String := ⟨List.replicate (3 - fs.length) '0'⟩
    sign ++ ipStr ++ "." ++ ⟨((pad ++ fs).data.reverse.dropWhile (· = '0')).reverse⟩

/-- Default JS rendering of a number in a template literal. Integral values
render exactly; the fractional rendering is never reached by the code under
verification (all interpolated caps are integers). -/
def jsRatToString (q : ℚ) : String :=
  if q.den = 1 then toString q.num
  else toString q.num ++ "/" ++ toString q.den

/-! ### Data model (shared/deals.ts, shared/lenders.ts) -/

/-- shared/deals.ts CreditTier. -/
inductive CreditTier
  | deep_subprime
  | subprime
  | near_prime
  | prime
deriving DecidableEq

/-- The literal string of a credit tier with '_' replaced by ' '
(`creditTier.replace('_', ' ')` in the source). -/
def tierDisplay : CreditTier → String
  | .deep_subprime => "deep subprime"
  | .subprime => "subprime"
  | .near_prime => "near prime"
  | .prime => "prime"

structure BackendProducts where
  gap : Bool
  vsc : Bool
  otherProductsTotal : ℚ
deriving DecidableEq

structure DealInput where
  vehicleId : String
  vehicleYear : ℤ
  vehicleMake : String
  vehicleMileage : ℤ
  vehiclePrice : ℚ
  vehicleCost : ℚ
  taxRate : ℚ
  fees : ℚ
  downPayment : ℚ
  tradeAllowance : ℚ
  tradePayoff : ℚ
  backendProducts : BackendProducts
  customerCreditTier : CreditTier
  targetPayment : ℚ
  paymentTolerance : ℚ
  preferredTermMonths : Option ℕ
  monthlyIncome : Option ℚ
deriving DecidableEq

inductive WarrantyReason
  | age
  | mileage
  | both
deriving DecidableEq

structure RiskAssessment where
  isUpsideDown : Bool
  ltvPercent : ℚ
  isOutOfWarranty : Bool
  outOfWarrantyReason : Option WarrantyReason
  vehicleAgeYears : ℤ
  vehicleMileage : ℤ
  recommendGap : Bool
  recommendVsc : Bool
deriving DecidableEq

inductive OptimizationLevel
  | optimal
  | vsc_stripped
  | all_stripped
deriving DecidableEq

inductive ProductDecisionReason
  | ltv_high
  | high_mileage
  | vehicle_age
  | budget_optimization
  | lender_declined
  | risk_based
  | profit_maximization
deriving DecidableEq

structure ProductDecision where
  included : Bool
  reason : ProductDecisionReason
  note : String
deriving DecidableEq

structure SmartProductRecommendation where
  gap : ProductDecision
  vsc : ProductDecision
deriving DecidableEq

structure VehicleEligibilityResult where
  isEligible : Bool
  reasons : List String
  advanceMultiplier : ℚ
  warnings : List String
deriving DecidableEq

structure DealCandidate where
  lenderId : String
  lenderName : String
  termMonths : ℕ
  apr : ℚ
  amountFinanced : ℚ
  payment : ℚ
  netCheckToDealer : ℚ
  dealerFrontGross : ℚ
  dealerBackEndGross : ℚ
  dealerProfit : ℚ
  totalDown : ℚ
  backendTotal : ℚ
  ltv : ℚ
  withinGuidelines : Bool
  reasons : List String
  adjustments : List String
  hasGap : Bool
  hasVsc : Bool
  smartNote : String
  productRecommendation : Option SmartProductRecommendation
  riskAssessment : Option RiskAssessment
  optimizationLevel : OptimizationLevel
  vehicleWarnings : List String
  advanceMultiplier : ℚ
  ptiPercent : Option ℚ
  ptiWarning : Option String
  ptiExceedsLimit : Bool
  requiredIncome : Option ℤ
deriving DecidableEq

structure DealConstraintsResult where
  isValid : Bool
  reasons : List String
deriving DecidableEq

/-- shared/lenders.ts LenderTierPricing. -/
structure LenderTierPricing where
  creditTier : CreditTier
  minApr : ℚ
  maxApr : ℚ
  minDownPct : ℚ
  baseAdvancePercent : ℚ
  maxAdvancePercent : ℚ
  maxLtvPercent : ℚ
deriving DecidableEq

structure VehicleRestrictions where
  maxAge : ℤ
  maxMileage : ℤ
  excludedMakes : List String
deriving DecidableEq

/-- Year range of a vehicle preference; the source field `end` is renamed
`stop` because `end` is a Lean keyword. -/
structure YearRange where
  start : ℤ
  stop : ℤ
deriving DecidableEq

structure VehiclePreference where
  make : String
  multiplier : ℚ
  reason : Option String
  yearRange : Option YearRange
deriving DecidableEq

structure LenderConfig where
  id : String
  name : String
  active : Bool
  allowedTerms : List ℕ
  minAmountFinanced : ℚ
  maxAmountFinanced : ℚ
  maxBackendTotal : ℚ
  maxBackendPercentOfAmount : ℚ
  maxVehicleAgeYears : ℤ
  maxMiles : ℤ
  lenderFeePercent : ℚ
  pricingGrid : List LenderTierPricing
  vehicleRestrictions : VehicleRestrictions
  vehiclePreferences : List VehiclePreference
  validateDeal : DealInput → ℚ → DealConstraintsResult

/-! ### Product pricing and risk constants (shared/rehash.ts) -/

def GAP_PRICE : ℚ := 900
def VSC_PRICE : ℚ := 1800
def WARRANTY_AGE_THRESHOLD : ℤ := 3
def WARRANTY_MILEAGE_THRESHOLD : ℤ := 36000
def THEFT_RISK_YEAR_START : ℤ := 2011
def THEFT_RISK_YEAR_END : ℤ := 2021
def THEFT_RISK_MAKES : List String := ["Kia", "Hyundai"]

/-- DEPRECIATION_SCHEDULE: Record keyed by age in years. -/
def DEPRECIATION_SCHEDULE (age : ℤ) : Option ℚ :=
  if age = 0 then some 1.00
  else if age = 1 then some 0.85
  else if age = 2 then some 0.78
  else if age = 3 then some 0.72
  else if age = 4 then some 0.66
  else if age = 5 then some 0.60
  else if age = 6 then some 0.55
  else if age = 7 then some 0.50
  else if age = 8 then some 0.46
  else if age = 9 then some 0.42
  else if age = 10 then some 0.38
  else none

structure MileageBracket where
  maxMiles : ℤ
  factor : ℚ
deriving DecidableEq

def MILEAGE_DEPRECIATION_BRACKETS : List MileageBracket :=
  [⟨30000, 1.00⟩, ⟨60000, 0.95⟩, ⟨90000, 0.90⟩, ⟨120000, 0.85⟩, ⟨150000, 0.80⟩, ⟨180000, 0.75⟩]

/-- PTI_LIMITS by credit tier. -/
def PTI_LIMITS : CreditTier → ℚ
  | .deep_subprime => 0.25
  | .subprime => 0.18
  | .near_prime => 0.15
  | .prime => 0.12

/-! ### Lender-specific advance configurations -/

inductive AdvanceType
  | cost_based
  | payment_based
  | risk_adjusted
deriving DecidableEq

structure TierAdvances where
  platinum : ℚ
  gold : ℚ
  standard : ℚ
deriving DecidableEq

structure RangeQ where
  min : ℚ
  max : ℚ
deriving DecidableEq

structure LenderAdvanceConfig where
  type : AdvanceType
  tierAdvances : Option TierAdvances
  dealerTierPenalty : Option ℚ
  paymentMultiplierRange : Option RangeQ
  baseAdvance : Option ℚ
  riskAdjustmentRange : Option RangeQ
  docFee : ℚ
  originationFee : ℚ
  holdbackPercent : ℚ
  miscFees : ℚ
deriving DecidableEq

/-- LENDER_ADVANCE_CONFIGS: Record keyed by lender id. -/
def LENDER_ADVANCE_CONFIGS (id : String) : Option LenderAdvanceConfig :=
  if id = "westlake" then
    some { type := .cost_based
           tierAdvances := some ⟨1.12, 1.10, 1.08⟩
           dealerTierPenalty := some 0.025
           paymentMultiplierRange := none
           baseAdvance := none
           riskAdjustmentRange := none
           docFee := 799, originationFee := 595, holdbackPercent := 0.02, miscFees := 150 }
  else if id = "western_funding" then
    some { type := .payment_based
           tierAdvances := none
           dealerTierPenalty := none
           paymentMultiplierRange := some ⟨1.20, 1.45⟩
           baseAdvance := none
           riskAdjustmentRange := none
           docFee := 695, originationFee := 495, holdbackPercent := 0.025, miscFees := 125 }
  else if id = "uac" then
    some { type := .risk_adjusted
           tierAdvances := none
           dealerTierPenalty := none
           paymentMultiplierRange := none
           baseAdvance := some 1.10
           riskAdjustmentRange := some ⟨-0.10, 0.08⟩
           docFee := 650, originationFee := 450, holdbackPercent := 0.018, miscFees := 100 }
  else none

/-! ### Helper functions (shared/rehash.ts) -/

/-- calculateBookValue: retail price times age factor times mileage factor,
rounded. -/
def calculateBookValue (retailPrice : ℚ) (vehicleAge : ℤ) (mileage : ℤ) : ℤ :=
  let ageYears := min vehicleAge 10
  let ageFactor := (DEPRECIATION_SCHEDULE ageYears).getD 0.35
  let mileageBracket := MILEAGE_DEPRECIATION_BRACKETS.find? (fun b => decide (mileage ≤ b.maxMiles))
  let mileageFactor := (mileageBracket.map MileageBracket.factor).getD 0.70
  jsRound (retailPrice * ageFactor * mileageFactor)

/-- calculateMonthlyPayment: standard amortization formula. -/
def calculateMonthlyPayment (amountFinanced : ℚ) (apr : ℚ) (termMonths : ℕ) : ℚ :=
  let monthlyRate := apr / 100 / 12
  if monthlyRate = 0 then amountFinanced / termMonths
  else (monthlyRate * amountFinanced) / (1 - (1 + monthlyRate) ^ (-(termMonths : ℤ)))

/-- calculateRiskScore (the lender parameter is unused in the source too). -/
def calculateRiskScore (currentYear : ℤ) (deal : DealInput) (_lender : LenderConfig) : ℚ :=
  let tierScore : ℚ :=
    match deal.customerCreditTier with
    | .prime => 30
    | .near_prime => 15
    | .subprime => 0
    | .deep_subprime => -20
  let score1 : ℚ := 50 + tierScore
  let downPct := deal.downPayment / deal.vehiclePrice
  let score2 := score1 +
    (if downPct ≥ 0.20 then 15 else if downPct ≥ 0.15 then 10 else if downPct ≥ 0.10 then 5 else 0)
  let vehicleAge := currentYear - deal.vehicleYear
  let score3 := score2 +
    (if vehicleAge > 10 then -15 else if vehicleAge > 7 then -10 else if vehicleAge > 5 then -5 else 0)
  let score4 := score3 +
    (if deal.vehicleMileage > 150000 then -15
     else if deal.vehicleMileage > 120000 then -10
     else if deal.vehicleMileage > 90000 then -5 else 0)
  let make := jsToLower deal.vehicleMake
  let score5 := score4 + (if make ∈ ["toyota", "honda", "lexus", "subaru"] then 10 else 0)
  let score6 := score5 + (if make ∈ ["kia", "hyundai", "nissan", "dodge"] then -10 else 0)
  max 0 (min 100 score6)

def getPtiLimit (creditTier : CreditTier) : ℚ := PTI_LIMITS creditTier

def calculatePTI (payment : ℚ) (income : ℚ) : ℚ :=
  if income ≤ 0 then 0 else payment / income

def calculateRequiredIncome (payment : ℚ) (ptiLimit : ℚ) : ℚ :=
  if ptiLimit ≤ 0 then 0 else payment / ptiLimit

structure PtiResult where
  ptiPercent : Option ℚ
  ptiWarning : Option String
  ptiExceedsLimit : Bool
  requiredIncome : Option ℤ
deriving DecidableEq

/-- evaluatePTI. -/
def evaluatePTI (payment : ℚ) (monthlyIncome : Option ℚ) (creditTier : CreditTier) : PtiResult :=
  let ptiLimit := getPtiLimit creditTier
  let requiredIncome := calculateRequiredIncome payment ptiLimit
  let noIncome : PtiResult :=
    { ptiPercent := none, ptiWarning := none, ptiExceedsLimit := false
      requiredIncome := some ⌈requiredIncome⌉ }
  match monthlyIncome with
  | none => noIncome
  | some income =>
    if income ≤ 0 then noIncome
    else
      let pti := calculatePTI payment income
      let ptiPercent := pti * 100
      let ptiWarning : Option String :=
        if pti > ptiLimit then
          some ("High PTI (" ++ jsToFixed 0 ptiPercent ++ "%). Max " ++
            jsToFixed 0 (ptiLimit * 100) ++ "% for " ++ tierDisplay creditTier ++
            ". Requires income of $" ++ jsRatToLocaleString requiredIncome ++ "+")
        else none
      { ptiPercent := some ptiPercent, ptiWarning
        ptiExceedsLimit := decide (pti > ptiLimit)
        requiredIncome := some ⌈requiredIncome⌉ }

/-! ### Vehicle eligibility check (shared/rehash.ts isVehicleEligible) -/

/-- Whether an optional year range (inclusive) contains a year; an absent
range always matches (the loop's `yearInRange = true` default). -/
def yearRangeContains : Option YearRange → ℤ → Prop
  | some r, y => r.start ≤ y ∧ y ≤ r.stop
  | none, _ => True

instance : ∀ (yr : Option YearRange) (y : ℤ), Decidable (yearRangeContains yr y)
  | some r, y => inferInstanceAs (Decidable (r.start ≤ y ∧ y ≤ r.stop))
  | none, _ => inferInstanceAs (Decidable True)

/-- One iteration of the vehicle-preferences loop: accumulator is the pair
(advanceMultiplier, warnings). -/
def prefStep (normalizedMake : String) (vehicleYear : ℤ)
    (acc : ℚ × List String) (pref : VehiclePreference) : ℚ × List String :=
  if jsToLower pref.make = jsToLower normalizedMake then
    if yearRangeContains pref.yearRange vehicleYear then
      let m := min acc.1 pref.multiplier
      let ws :=
        if pref.multiplier < 1 then
          acc.2 ++ [(pref.reason.getD "Risk Adjustment") ++ ": " ++ normalizedMake ++ " " ++
            toString vehicleYear ++ " (-" ++ jsToFixed 0 ((1 - pref.multiplier) * 100) ++
            "% advance)"]
        else if pref.multiplier > 1 then
          acc.2 ++ [(pref.reason.getD "Preferred Make") ++ ": " ++ normalizedMake ++
            " (+" ++ jsToFixed 0 ((pref.multiplier - 1) * 100) ++ "% advance)"]
        else acc.2
      (m, ws)
    else acc
  else acc

/-- The warning pushed by the special Kia/Hyundai theft-risk branch. -/
def theftWarningString (normalizedMake : String) (vehicleYear : ℤ) : String :=
  "Theft Risk: " ++ normalizedMake ++ " " ++ toString vehicleYear ++
    " (2011-2021 models lack immobilizers)"

/-- The source's `hasTheftPenalty` per-preference test: make matches and a
present year range contains the vehicle year. -/
def coversTheftYear (pref : VehiclePreference) (normalizedMake : String) (y : ℤ) : Prop :=
  jsToLower pref.make = jsToLower normalizedMake ∧
    match pref.yearRange with
    | some r => r.start ≤ y ∧ y ≤ r.stop
    | none => False

instance (pref : VehiclePreference) (nm : String) (y : ℤ) :
    Decidable (coversTheftYear pref nm y) := by
  unfold coversTheftYear
  exact match pref.yearRange with
    | some r => inferInstanceAs (Decidable (_ ∧ _ ∧ _))
    | none => inferInstanceAs (Decidable (_ ∧ False))

/-- isVehicleEligible. -/
def isVehicleEligible (currentYear : ℤ) (deal : DealInput) (lender : LenderConfig) :
    VehicleEligibilityResult :=
  let vehicleAge := currentYear - deal.vehicleYear
  let normalizedMake := jsTrim deal.vehicleMake
  let restrictions := lender.vehicleRestrictions
  let ageReasons :=
    if vehicleAge > restrictions.maxAge then
      ["Vehicle too old: " ++ toString vehicleAge ++ " years (max " ++
        toString restrictions.maxAge ++ " years for " ++ lender.name ++ ")"]
    else []
  let mileageReasons :=
    if deal.vehicleMileage > restrictions.maxMileage then
      ["Mileage too high: " ++ jsIntToLocaleString deal.vehicleMileage ++ " mi (max " ++
        jsIntToLocaleString restrictions.maxMileage ++ " mi for " ++ lender.name ++ ")"]
    else []
  let excludedReasons :=
    if ∃ ex ∈ restrictions.excludedMakes, jsToLower ex = jsToLower normalizedMake then
      [normalizedMake ++ " not eligible with " ++ lender.name]
    else []
  let reasons := ageReasons ++ mileageReasons ++ excludedReasons
  let folded :=
    lender.vehiclePreferences.foldl (prefStep normalizedMake deal.vehicleYear) (1, [])
  let advanceMultiplier := folded.1
  let warnings := folded.2
  if ((∃ m ∈ THEFT_RISK_MAKES, jsToLower m = jsToLower normalizedMake) ∧
      (THEFT_RISK_YEAR_START ≤ deal.vehicleYear ∧ deal.vehicleYear ≤ THEFT_RISK_YEAR_END)) ∧
     ((¬ ∃ p ∈ lender.vehiclePreferences, coversTheftYear p normalizedMake deal.vehicleYear) ∧
      advanceMultiplier = 1) then
    { isEligible := reasons.isEmpty, reasons, advanceMultiplier := 0.90
      warnings := warnings ++ [theftWarningString normalizedMake deal.vehicleYear] }
  else
    { isEligible := reasons.isEmpty, reasons, advanceMultiplier, warnings }

/-! ### Risk assessment (shared/rehash.ts assessRisk) -/

def assessRisk (currentYear : ℤ) (deal : DealInput) : RiskAssessment :=
  let vehicleAgeYears := currentYear - deal.vehicleYear
  let bookValue : ℚ := (calculateBookValue deal.vehiclePrice vehicleAgeYears deal.vehicleMileage : ℤ)
  let taxableBase := deal.vehiclePrice
  let tax := taxableBase * deal.taxRate
  let baseAmountFinanced := taxableBase + tax + deal.fees
  let totalDown := deal.downPayment + deal.tradeAllowance - deal.tradePayoff
  let preliminaryAmountFinanced := max (baseAmountFinanced - totalDown) 0
  let ltvPercent := if bookValue > 0 then preliminaryAmountFinanced / bookValue * 100 else 0
  let isUpsideDown := decide (ltvPercent > 100)
  let isOverAge := decide (vehicleAgeYears > WARRANTY_AGE_THRESHOLD)
  let isOverMileage := decide (deal.vehicleMileage > WARRANTY_MILEAGE_THRESHOLD)
  let isOutOfWarranty := isOverAge || isOverMileage
  let outOfWarrantyReason : Option WarrantyReason :=
    if isOverAge && isOverMileage then some .both
    else if isOverAge then some .age
    else if isOverMileage then some .mileage
    else none
  { isUpsideDown, ltvPercent, isOutOfWarranty, outOfWarrantyReason, vehicleAgeYears
    vehicleMileage := deal.vehicleMileage
    recommendGap := isUpsideDown, recommendVsc := isOutOfWarranty }

/-! ### Smart note generation -/

def generateSmartNote (hasGap hasVsc : Bool) (riskAssessment : RiskAssessment)
    (optimizationLevel : OptimizationLevel) : String :=
  let notes : List String :=
    match optimizationLevel with
    | .optimal =>
      (if hasGap && riskAssessment.isUpsideDown then
        ["Added GAP due to high LTV (" ++ jsToFixed 0 riskAssessment.ltvPercent ++ "%)"]
       else []) ++
      (if hasVsc && riskAssessment.isOutOfWarranty then
        match riskAssessment.outOfWarrantyReason with
        | some .mileage =>
          ["Added VSC due to high mileage (" ++
            jsIntToLocaleString riskAssessment.vehicleMileage ++ " mi)"]
        | some .age =>
          ["Added VSC due to vehicle age (" ++
            toString riskAssessment.vehicleAgeYears ++ " years old)"]
        | some .both =>
          ["Added VSC - vehicle out of warranty (" ++
            toString riskAssessment.vehicleAgeYears ++ "yr, " ++
            jsIntToLocaleString riskAssessment.vehicleMileage ++ "mi)"]
        | none => []
       else []) ++
      (if hasGap && !riskAssessment.isUpsideDown then
        ["GAP included for maximum protection"] else []) ++
      (if hasVsc && !riskAssessment.isOutOfWarranty then
        ["VSC included for extended coverage"] else [])
    | .vsc_stripped =>
      ["Removed VSC to meet payment target"] ++
        (if hasGap then ["GAP retained for negative equity protection"] else [])
    | .all_stripped => ["Products removed to meet lender/payment requirements"]
  let finalNotes :=
    if notes.isEmpty then
      if !hasGap && !hasVsc then ["No products - maximizing approval odds"]
      else ["Optimal product coverage included"]
    else notes
  String.intercalate ". " finalNotes

/-! ### Backend scenarios -/

structure BackendScenario where
  label : String
  value : ℚ
  hasGap : Bool
  hasVsc : Bool
  optimizationLevel : OptimizationLevel
deriving DecidableEq

/-- The `buildSmartScenarios` closure of runRehash. -/
def buildSmartScenarios (deal : DealInput) (riskAssessment : RiskAssessment)
    (lender : LenderConfig) : List BackendScenario :=
  let other := deal.backendProducts.otherProductsTotal
  let optimalGap := riskAssessment.recommendGap || deal.backendProducts.gap
  let optimalVsc := riskAssessment.recommendVsc || deal.backendProducts.vsc
  let optimalValue :=
    min ((if optimalGap then GAP_PRICE else 0) + (if optimalVsc then VSC_PRICE else 0) + other)
      lender.maxBackendTotal
  [{ label := "Optimal Coverage", value := optimalValue, hasGap := optimalGap
     hasVsc := optimalVsc, optimizationLevel := .optimal }] ++
  (if optimalVsc then
    [{ label := "GAP Only"
       value := min ((if optimalGap then GAP_PRICE else 0) + other) lender.maxBackendTotal
       hasGap := optimalGap, hasVsc := false, optimizationLevel := .vsc_stripped }]
   else []) ++
  [{ label := "No Products", value := other, hasGap := false, hasVsc := false
     optimizationLevel := .all_stripped }]

/-! ### Amount financed and APR selection -/

def computeAmountFinanced (deal : DealInput) (backendTotal : ℚ) : ℚ :=
  let taxableBase := deal.vehiclePrice
  let tax := taxableBase * deal.taxRate
  let gross := taxableBase + tax + deal.fees + backendTotal
  let totalDown := deal.downPayment + deal.tradeAllowance - deal.tradePayoff
  max (gross - totalDown) 0

def pickApr (lender : LenderConfig) (creditTier : CreditTier) : Option ℚ :=
  match lender.pricingGrid.find? (fun p => decide (p.creditTier = creditTier)) with
  | none => none
  | some row => some ((row.minApr + row.maxApr) / 2)

/-! ### Net check and profit estimation -/

structure NetCheckEstimate where
  netCheckToDealer : ℚ
  dealerFrontGross : ℚ
  dealerBackEndGross : ℚ
  dealerProfit : ℚ
  totalDown : ℚ
  ltv : ℚ
  bookValue : ℚ
deriving DecidableEq

/-- calculateFallbackAdvance for lenders without an advance configuration.
The source also binds a baseAdvance from tierRow.baseAdvancePercent that it
never uses; it is kept here under an inert name. -/
def calculateFallbackAdvance (deal : DealInput) (tierRow : LenderTierPricing)
    (amountFinanced : ℚ) (bookValue : ℚ) (advanceMultiplier : ℚ) : ℚ :=
  let _baseAdvance := tierRow.baseAdvancePercent / 100 * deal.vehicleCost * advanceMultiplier
  let maxAdvanceByCost := tierRow.maxAdvancePercent / 100 * deal.vehicleCost * advanceMultiplier
  let maxAdvanceByLtv := tierRow.maxLtvPercent / 100 * bookValue * advanceMultiplier
  min amountFinanced (min maxAdvanceByCost maxAdvanceByLtv)

/-- estimateNetCheckAndProfit. The source's unreachable `default` switch case
cannot arise with the closed `AdvanceType`; the `console.log` diagnostic is a
side effect with no data flow and is omitted. -/
def estimateNetCheckAndProfit (currentYear : ℤ) (deal : DealInput) (lender : LenderConfig)
    (tierRow : LenderTierPricing) (amountFinanced : ℚ) (backendTotal : ℚ)
    (advanceMultiplier : ℚ) : NetCheckEstimate :=
  let vehicleAge := currentYear - deal.vehicleYear
  let bookValue : ℚ := (calculateBookValue deal.vehiclePrice vehicleAge deal.vehicleMileage : ℤ)
  let ltv := if bookValue > 0 then amountFinanced / bookValue * 100 else 999
  let netAdvance :=
    match LENDER_ADVANCE_CONFIGS lender.id with
    | some advanceConfig =>
      let grossAdvance :=
        match advanceConfig.type with
        | .cost_based =>
          let tierMultiplier := (advanceConfig.tierAdvances.map TierAdvances.standard).getD 1.08
          min amountFinanced (deal.vehicleCost * tierMultiplier * advanceMultiplier)
        | .payment_based =>
          -- the source dereferences paymentMultiplierRange with a non-null
          -- assertion; it is present in every configured lender
          let range := advanceConfig.paymentMultiplierRange.getD ⟨0, 0⟩
          let creditMultiplier :=
            match deal.customerCreditTier with
            | .deep_subprime => range.min
            | .subprime => (range.min + range.max) / 2
            | .near_prime => range.max * 0.95
            | .prime => range.max
          min amountFinanced (deal.vehicleCost * creditMultiplier * advanceMultiplier)
        | .risk_adjusted =>
          let riskScore := calculateRiskScore currentYear deal lender
          let range := advanceConfig.riskAdjustmentRange.getD ⟨0, 0⟩
          let riskAdjustment := range.min + riskScore / 100 * (range.max - range.min)
          let baseAdvance := advanceConfig.baseAdvance.getD 1.10
          let riskAdjustedMultiplier := baseAdvance + riskAdjustment
          min amountFinanced (deal.vehicleCost * riskAdjustedMultiplier * advanceMultiplier)
      let totalFees := advanceConfig.docFee + advanceConfig.originationFee + advanceConfig.miscFees
      let holdback := grossAdvance * advanceConfig.holdbackPercent
      grossAdvance - totalFees - holdback
    | none =>
      let grossAdvance :=
        calculateFallbackAdvance deal tierRow amountFinanced bookValue advanceMultiplier
      let lenderFee := lender.lenderFeePercent / 100 * amountFinanced
      grossAdvance - lenderFee
  let netCheck := max (netAdvance - deal.tradePayoff) 0
  let totalDown := deal.downPayment + deal.tradeAllowance - deal.tradePayoff
  let frontGross := deal.vehiclePrice - deal.vehicleCost
  let dealerProfit := netCheck + totalDown - deal.vehicleCost - deal.fees
  { netCheckToDealer := netCheck, dealerFrontGross := frontGross
    dealerBackEndGross := backendTotal, dealerProfit, totalDown, ltv, bookValue }

/-! ### Main rehash engine -/

structure RehashResult where
  bestDeal : Option DealCandidate
  allCandidates : List DealCandidate
  riskAssessment : RiskAssessment
deriving DecidableEq

/-- The innermost body of runRehash's term x down x scenario loops: evaluate
one combination, `none` when any guard rejects it. -/
def mkCandidate (currentYear : ℤ) (deal : DealInput) (riskAssessment : RiskAssessment)
    (eligibility : VehicleEligibilityResult) (lender : LenderConfig)
    (tierRow : LenderTierPricing) (apr : ℚ) (term : ℕ) (down : ℚ)
    (scenario : BackendScenario) : Option DealCandidate :=
  let modifiedDeal := { deal with downPayment := down }
  let amountFinanced := computeAmountFinanced modifiedDeal scenario.value
  if amountFinanced < lender.minAmountFinanced ∨ amountFinanced > lender.maxAmountFinanced then
    none
  else
    let backendPct := if amountFinanced > 0 then scenario.value / amountFinanced * 100 else 999
    if backendPct > lender.maxBackendPercentOfAmount then none
    else
      let check := lender.validateDeal modifiedDeal amountFinanced
      if !check.isValid then none
      else
        let bookValue : ℚ :=
          (calculateBookValue deal.vehiclePrice (currentYear - deal.vehicleYear)
            deal.vehicleMileage : ℤ)
        let ltv := if bookValue > 0 then amountFinanced / bookValue * 100 else 999
        if ltv > tierRow.maxLtvPercent then none
        else
          let payment := calculateMonthlyPayment amountFinanced apr term
          let est := estimateNetCheckAndProfit currentYear modifiedDeal lender tierRow
            amountFinanced scenario.value eligibility.advanceMultiplier
          let productParts :=
            (if scenario.hasGap then ["GAP"] else []) ++ (if scenario.hasVsc then ["VSC"] else [])
          let adjustments :=
            [lender.name ++ ": " ++ toString term ++ " months @ " ++ jsToFixed 2 apr ++ "% APR"] ++
            (if down ≠ deal.downPayment then
              ["Increased down from $" ++ jsToFixed 0 deal.downPayment ++ " to $" ++
                jsToFixed 0 down]
             else []) ++
            (if productParts ≠ [] then
              ["Products: " ++ String.intercalate " + " productParts ++ " ($" ++
                jsToFixed 0 scenario.value ++ ")"]
             else ["No products - lean structure"]) ++
            (if eligibility.advanceMultiplier ≠ 1 then
              if eligibility.advanceMultiplier < 1 then
                ["Advance reduced by " ++
                  jsToFixed 0 ((1 - eligibility.advanceMultiplier) * 100) ++ "% (vehicle risk)"]
              else
                ["Advance increased by " ++
                  jsToFixed 0 ((eligibility.advanceMultiplier - 1) * 100) ++
                  "% (preferred vehicle)"]
             else [])
          let baseNote := generateSmartNote scenario.hasGap scenario.hasVsc riskAssessment
            scenario.optimizationLevel
          let smartNote :=
            if eligibility.warnings ≠ [] then
              baseNote ++ ". " ++ String.intercalate ". " eligibility.warnings
            else baseNote
          let ptiResult := evaluatePTI payment deal.monthlyIncome deal.customerCreditTier
          let ptiAdjustments :=
            if ptiResult.ptiExceedsLimit then
              match ptiResult.ptiWarning with
              | some w => [w]
              | none => []
            else []
          some
            { lenderId := lender.id, lenderName := lender.name, termMonths := term, apr
              amountFinanced, payment
              netCheckToDealer := est.netCheckToDealer
              dealerFrontGross := est.dealerFrontGross
              dealerBackEndGross := est.dealerBackEndGross
              dealerProfit := est.dealerProfit
              totalDown := est.totalDown
              backendTotal := scenario.value
              ltv := est.ltv
              withinGuidelines := true
              reasons := check.reasons
              adjustments := adjustments ++ ptiAdjustments
              hasGap := scenario.hasGap, hasVsc := scenario.hasVsc, smartNote
              productRecommendation := none
              riskAssessment := some riskAssessment
              optimizationLevel := scenario.optimizationLevel
              vehicleWarnings := eligibility.warnings
              advanceMultiplier := eligibility.advanceMultiplier
              ptiPercent := ptiResult.ptiPercent
              ptiWarning := ptiResult.ptiWarning
              ptiExceedsLimit := ptiResult.ptiExceedsLimit
              requiredIncome := ptiResult.requiredIncome }

/-- The per-lender body of runRehash's activeLenders loop. -/
def lenderCandidates (currentYear : ℤ) (deal : DealInput) (riskAssessment : RiskAssessment)
    (lender : LenderConfig) : List DealCandidate :=
  let eligibility := isVehicleEligible currentYear deal lender
  if !eligibility.isEligible then []
  else
    let vehicleAge := currentYear - deal.vehicleYear
    if vehicleAge > lender.maxVehicleAgeYears then []
    else if deal.vehicleMileage > lender.maxMiles then []
    else
      match lender.pricingGrid.find? (fun p => decide (p.creditTier = deal.customerCreditTier)) with
      | none => []
      | some tierRow =>
        match pickApr lender deal.customerCreditTier with
        | none => []
        | some apr =>
          let backendScenarios := buildSmartScenarios deal riskAssessment lender
          let downOptions := [deal.downPayment, deal.downPayment + 500, deal.downPayment + 1000]
          lender.allowedTerms.flatMap (fun term =>
            downOptions.flatMap (fun down =>
              backendScenarios.filterMap (fun scenario =>
                mkCandidate currentYear deal riskAssessment eligibility lender tierRow apr
                  term down scenario)))

/-- All candidates accumulated by runRehash, in push order. -/
def rehashCandidates (currentYear : ℤ) (deal : DealInput) (riskAssessment : RiskAssessment)
    (lenders : List LenderConfig) : List DealCandidate :=
  (lenders.filter (fun l => l.active)).flatMap (lenderCandidates currentYear deal riskAssessment)

/-- The total preorder induced by runRehash's sort comparator: a candidate
sorts (weakly) before another when its net check to dealer is larger, or the
net checks tie and its payment is at least as close to the target payment. -/
def candLE (targetPayment : ℚ) (a b : DealCandidate) : Prop :=
  b.netCheckToDealer < a.netCheckToDealer ∨
    (b.netCheckToDealer = a.netCheckToDealer ∧
      |a.payment - targetPayment| ≤ |b.payment - targetPayment|)

instance (targetPayment : ℚ) : DecidableRel (candLE targetPayment) := fun a b => by
  unfold candLE
  infer_instance

/-- runRehash. -/
def runRehash (currentYear : ℤ) (deal : DealInput) (lenders : List LenderConfig) :
    RehashResult :=
  let riskAssessment := assessRisk currentYear deal
  let candidates := rehashCandidates currentYear deal riskAssessment lenders
  let targetLow := deal.targetPayment - deal.paymentTolerance
  let targetHigh := deal.targetPayment + deal.paymentTolerance
  let withinPayment :=
    candidates.filter (fun c => decide (c.payment ≥ targetLow ∧ c.payment ≤ targetHigh))
  let pool := if withinPayment.length > 0 then withinPayment else candidates
  let sorted := List.insertionSort (candLE deal.targetPayment) pool
  { bestDeal := sorted.head?, allCandidates := sorted, riskAssessment }

/-! ### Compliance triage (shared/bankFirstTriage.ts) -/

structure BankRules where
  ltvCap : ℚ
  mandatoryVsc : Bool
  mandatoryGap : Bool
  maxPaymentToIncome : Option ℚ
deriving DecidableEq

structure RejectedDeal where
  deal : DealCandidate
  violations : List String
deriving DecidableEq

structure ComplianceResult where
  validDeals : List DealCandidate
  rejectedDeals : List RejectedDeal
deriving DecidableEq

/-- The LTV violation message of filterCompliantDeals. -/
def ltvViolationString (deal : DealCandidate) (rules : BankRules) : String :=
  "LTV " ++ jsToFixed 0 deal.ltv ++ "% exceeds cap of " ++ jsRatToString rules.ltvCap ++ "%"

/-- The violations collected for one candidate by filterCompliantDeals' loop,
in push order. The PTI check guards on JS truthiness of both
`rules.maxPaymentToIncome` and `deal.ptiPercent` (absent or zero skip it). -/
def candViolations (deal : DealCandidate) (rules : BankRules) : List String :=
  (if deal.ltv > rules.ltvCap then [ltvViolationString deal rules] else []) ++
  (if rules.mandatoryVsc && !deal.hasVsc then
    ["Mandatory VSC missing (high mileage vehicle)"] else []) ++
  (if rules.mandatoryGap && !deal.hasGap then
    ["Mandatory GAP missing (negative equity)"] else []) ++
  (match rules.maxPaymentToIncome, deal.ptiPercent with
   | some mp, some pp =>
     if mp ≠ 0 ∧ pp ≠ 0 then
       if pp > mp * 100 then
         ["PTI " ++ jsToFixed 0 pp ++ "% exceeds limit of " ++ jsToFixed 0 (mp * 100) ++ "%"]
       else []
     else []
   | _, _ => [])

/-- filterCompliantDeals: partition candidates into valid and rejected,
preserving order. -/
def filterCompliantDeals : List DealCandidate → BankRules → ComplianceResult
  | [], _ => { validDeals := [], rejectedDeals := [] }
  | deal :: rest, rules =>
    let violations := candViolations deal rules
    let r := filterCompliantDeals rest rules
    if violations = [] then
      { validDeals := deal :: r.validDeals, rejectedDeals := r.rejectedDeals }
    else
      { validDeals := r.validDeals, rejectedDeals := ⟨deal, violations⟩ :: r.rejectedDeals }

/-- determineBankRules. The `||` fallback of the source's cap lookup is
`getD 120` here (all table entries are nonzero, so JS truthiness agrees). -/
def determineBankRules (vehicleMileage : ℤ) (ltvPercent : ℚ) (creditTier : String) : BankRules :=
  let ltvCaps : String → Option ℚ := fun t =>
    if t = "prime" then some 130
    else if t = "near_prime" then some 125
    else if t = "subprime" then some 120
    else if t = "deep_subprime" then some 115
    else none
  let ptiLimits : String → Option ℚ := fun t =>
    if t = "prime" then some 0.12
    else if t = "near_prime" then some 0.15
    else if t = "subprime" then some 0.18
    else if t = "deep_subprime" then some 0.25
    else none
  { ltvCap := (ltvCaps creditTier).getD 120
    mandatoryVsc := decide (vehicleMileage > 100000)
    mandatoryGap := decide (ltvPercent > 110)
    maxPaymentToIncome := ptiLimits creditTier }

/-! ### Shipped lender configurations (shared/lenders.ts LENDERS) -/

def westlakeConfig : LenderConfig :=
  { id := "westlake"
    name := "Westlake Financial"
    active := true
    allowedTerms := [36, 48, 60, 72]
    minAmountFinanced := 5000
    maxAmountFinanced := 45000
    maxBackendTotal := 3500
    maxBackendPercentOfAmount := 25
    maxVehicleAgeYears := 20
    maxMiles := 180000
    lenderFeePercent := 3.0
    pricingGrid :=
      [⟨.deep_subprime, 22, 27, 0.1, 115, 145, 145⟩,
       ⟨.subprime, 18, 23, 0.1, 115, 140, 140⟩,
       ⟨.near_prime, 12, 18, 0.05, 110, 130, 130⟩,
       ⟨.prime, 8, 12, 0.0, 105, 120, 120⟩]
    vehicleRestrictions := ⟨20, 180000, ["Daewoo", "Ferrari"]⟩
    vehiclePreferences :=
      [⟨"Toyota", 1.03, some "Preferred Make Bonus", none⟩,
       ⟨"Honda", 1.08, some "Preferred Make Bonus", none⟩,
       ⟨"Subaru", 1.05, some "Reliability Bonus", none⟩,
       ⟨"Lexus", 1.08, some "Luxury Preferred", none⟩,
       ⟨"Acura", 1.06, some "Luxury Preferred", none⟩,
       ⟨"Kia", 0.90, some "Theft Risk Penalty", some ⟨2011, 2021⟩⟩,
       ⟨"Hyundai", 0.90, some "Theft Risk Penalty", some ⟨2011, 2021⟩⟩,
       ⟨"Nissan", 0.88, some "CVT Risk", none⟩,
       ⟨"Dodge", 0.85, some "Depreciation Risk", none⟩,
       ⟨"Jeep", 0.88, some "Reliability Risk", none⟩,
       ⟨"Ford", 0.85, some "Focus/Fiesta Transmission Risk", some ⟨2012, 2018⟩⟩,
       ⟨"Chevrolet", 0.90, some "Cruze Risk", none⟩,
       ⟨"BMW", 0.85, some "Luxury Maintenance Risk", none⟩,
       ⟨"Mercedes", 0.85, some "Luxury Maintenance Risk", none⟩]
    validateDeal := fun deal amountFinanced =>
      let reasons :=
        (if amountFinanced < 5000 then
          ["Below Westlake minimum amount financed ($5,000)"] else []) ++
        (if amountFinanced > 45000 then
          ["Above Westlake maximum amount financed ($45,000)"] else []) ++
        (if deal.downPayment < deal.vehiclePrice * 0.05 then
          ["Down payment below 5% minimum for Westlake"] else [])
      { isValid := reasons.isEmpty, reasons } }

def westernFundingConfig : LenderConfig :=
  { id := "western_funding"
    name := "Western Funding"
    active := true
    allowedTerms := [48, 60, 72, 84]
    minAmountFinanced := 4000
    maxAmountFinanced := 40000
    maxBackendTotal := 4000
    maxBackendPercentOfAmount := 30
    maxVehicleAgeYears := 15
    maxMiles := 180000
    lenderFeePercent := 2.5
    pricingGrid :=
      [⟨.deep_subprime, 24, 29, 0.08, 120, 150, 150⟩,
       ⟨.subprime, 20, 25, 0.08, 115, 145, 145⟩,
       ⟨.near_prime, 14, 20, 0.05, 110, 135, 135⟩,
       ⟨.prime, 9, 14, 0.0, 105, 125, 125⟩]
    vehicleRestrictions := ⟨15, 180000, ["Land Rover", "Jaguar", "Saab", "Suzuki"]⟩
    vehiclePreferences :=
      [⟨"Toyota", 1.06, some "Preferred Make Bonus", none⟩,
       ⟨"Honda", 1.05, some "Preferred Make Bonus", none⟩,
       ⟨"Subaru", 1.04, some "Preferred Make Bonus", none⟩,
       ⟨"Lexus", 1.06, some "Luxury Preferred Make", none⟩,
       ⟨"Kia", 0.88, some "High Theft Risk Penalty", some ⟨2011, 2021⟩⟩,
       ⟨"Hyundai", 0.88, some "High Theft Risk Penalty", some ⟨2011, 2021⟩⟩,
       ⟨"Nissan", 0.90, some "CVT Reliability Risk", none⟩,
       ⟨"Dodge", 0.90, some "High Depreciation Risk", none⟩,
       ⟨"Chrysler", 0.88, some "Reliability Risk", none⟩]
    validateDeal := fun _deal amountFinanced =>
      let reasons :=
        (if amountFinanced < 4000 then
          ["Below Western Funding minimum amount financed ($4,000)"] else []) ++
        (if amountFinanced > 40000 then
          ["Above Western Funding maximum amount financed ($40,000)"] else [])
      { isValid := reasons.isEmpty, reasons } }

def uacConfig : LenderConfig :=
  { id := "uac"
    name := "United Auto Credit"
    active := true
    allowedTerms := [36, 48, 60, 72]
    minAmountFinanced := 5000
    maxAmountFinanced := 50000
    maxBackendTotal := 3000
    maxBackendPercentOfAmount := 20
    maxVehicleAgeYears := 15
    maxMiles := 150000
    lenderFeePercent := 2.0
    pricingGrid :=
      [⟨.deep_subprime, 23, 28, 0.1, 115, 140, 140⟩,
       ⟨.subprime, 19, 24, 0.1, 112, 135, 135⟩,
       ⟨.near_prime, 14, 20, 0.05, 108, 125, 125⟩,
       ⟨.prime, 9, 14, 0.0, 105, 120, 120⟩]
    vehicleRestrictions := ⟨15, 150000, ["Land Rover"]⟩
    vehiclePreferences :=
      [⟨"Toyota", 1.05, some "Preferred Make Bonus", none⟩,
       ⟨"Honda", 1.05, some "Preferred Make Bonus", none⟩,
       ⟨"Subaru", 1.08, some "High Reliability Bonus", none⟩,
       ⟨"Lexus", 1.10, some "Luxury Low-Mile Bonus", none⟩,
       ⟨"Acura", 1.10, some "Luxury Low-Mile Bonus", none⟩,
       ⟨"Mazda", 1.02, some "Reliability Bonus", none⟩,
       ⟨"Kia", 0.85, some "Theft Risk Penalty", some ⟨2011, 2022⟩⟩,
       ⟨"Hyundai", 0.85, some "Theft Risk Penalty", some ⟨2011, 2022⟩⟩,
       ⟨"Nissan", 0.90, some "CVT Transmission Risk", none⟩,
       ⟨"Dodge", 0.88, some "Depreciation Risk", none⟩,
       ⟨"Jeep", 0.88, some "Reliability Risk", none⟩,
       ⟨"Ford", 0.90, some "Model-Specific Risk", none⟩,
       ⟨"BMW", 0.88, some "Luxury Maintenance Risk", none⟩,
       ⟨"Mercedes", 0.88, some "Luxury Maintenance Risk", none⟩,
       ⟨"Audi", 0.85, some "Luxury Maintenance Risk", none⟩,
       ⟨"Volkswagen", 0.90, some "Reliability Risk", none⟩,
       ⟨"Mitsubishi", 0.85, some "Depreciation Risk", none⟩]
    validateDeal := fun deal amountFinanced =>
      let reasons :=
        (if deal.downPayment < 500 then
          ["UAC requires at least $500 down payment"] else []) ++
        (if amountFinanced < 5000 then
          ["Below UAC minimum amount financed ($5,000)"] else []) ++
        (if amountFinanced > 50000 then
          ["Above UAC maximum amount financed ($50,000)"] else [])
      { isValid := reasons.isEmpty, reasons } }

def LENDERS : List LenderConfig := [westlakeConfig, westernFundingConfig, uacConfig]

/-! ### Spec-side comparison definitions

These restate parts of the specification in its own words, to be compared
with the source-shaped definitions above. -/

/-- The multipliers of the lender preferences that match the deal: make equal
case-insensitively and the optional inclusive year range containing the
vehicle year. -/
def matchingMultipliers (normalizedMake : String) (vehicleYear : ℤ)
    (prefs : List VehiclePreference) : List ℚ :=
  (prefs.filter (fun p =>
    decide (jsToLower p.make = jsToLower normalizedMake ∧
      yearRangeContains p.yearRange vehicleYear))).map VehiclePreference.multiplier

/-- Per the claim's words: the minimum multiplier among the matching
preferences, defaulting to 1.0 when no preference matches. -/
def specMinMultiplier (ms : List ℚ) : ℚ :=
  match ms with
  | [] => 1
  | m :: rest => rest.foldl min m

/-- The age-depreciation factor as described by the spec: ages 0-10 explicit,
above 10 clamped to age 10's factor (the residual branch is the source's
fallback for ages outside the schedule, reachable only for negative ages). -/
def ageFactorSpec (age : ℤ) : ℚ :=
  if age ≥ 10 then 0.38
  else if age = 0 then 1.00
  else if age = 1 then 0.85
  else if age = 2 then 0.78
  else if age = 3 then 0.72
  else if age = 4 then 0.66
  else if age = 5 then 0.60
  else if age = 6 then 0.55
  else if age = 7 then 0.50
  else if age = 8 then 0.46
  else if age = 9 then 0.42
  else 0.35

/-! ### Concrete inputs used by the claim analyses -/

def c10HondaDeal : DealInput :=
  { vehicleId := "veh-10", vehicleYear := 2023, vehicleMake := "Honda"
    vehicleMileage := 30000, vehiclePrice := 20000, vehicleCost := 18000
    taxRate := 0.07, fees := 500, downPayment := 2000, tradeAllowance := 0
    tradePayoff := 0, backendProducts := ⟨false, false, 0⟩
    customerCreditTier := .subprime, targetPayment := 450, paymentTolerance := 50
    preferredTermMonths := none, monthlyIncome := none }

def c1Deal : DealInput :=
  { vehicleId := "veh-1", vehicleYear := 2022, vehicleMake := "Honda"
    vehicleMileage := 25000, vehiclePrice := 21000, vehicleCost := 19000
    taxRate := 0.07, fees := 500, downPayment := 2500, tradeAllowance := 0
    tradePayoff := 0, backendProducts := ⟨false, false, 0⟩
    customerCreditTier := .subprime, targetPayment := 460, paymentTolerance := 50
    preferredTermMonths := none, monthlyIncome := none }

def c1Lender : LenderConfig :=
  { id := "lender-c1", name := "Lender C1", active := true, allowedTerms := [60]
    minAmountFinanced := 0, maxAmountFinanced := 100000, maxBackendTotal := 3000
    maxBackendPercentOfAmount := 100, maxVehicleAgeYears := 30, maxMiles := 300000
    lenderFeePercent := 0, pricingGrid := []
    vehicleRestrictions := ⟨30, 300000, []⟩
    vehiclePreferences := [⟨"Honda", 1.08, some "Preferred Make Bonus", none⟩]
    validateDeal := fun _ _ => ⟨true, []⟩ }

def c4Deal : DealInput :=
  { vehicleId := "veh-4", vehicleYear := 2015, vehicleMake := "Kia"
    vehicleMileage := 60000, vehiclePrice := 12000, vehicleCost := 10000
    taxRate := 0.07, fees := 500, downPayment := 1500, tradeAllowance := 0
    tradePayoff := 0, backendProducts := ⟨false, false, 0⟩
    customerCreditTier := .subprime, targetPayment := 350, paymentTolerance := 50
    preferredTermMonths := none, monthlyIncome := none }

/-- A lender with no vehicle preferences at all (so certainly none covering
the theft-risk year). -/
def c4Lender : LenderConfig :=
  { id := "lender-c4", name := "Lender C4", active := true, allowedTerms := [60]
    minAmountFinanced := 0, maxAmountFinanced := 100000, maxBackendTotal := 3000
    maxBackendPercentOfAmount := 100, maxVehicleAgeYears := 30, maxMiles := 300000
    lenderFeePercent := 0, pricingGrid := []
    vehicleRestrictions := ⟨30, 300000, []⟩
    vehiclePreferences := []
    validateDeal := fun _ _ => ⟨true, []⟩ }

def c4bDeal : DealInput :=
  { vehicleId := "veh-4b", vehicleYear := 2015, vehicleMake := "Kia"
    vehicleMileage := 60000, vehiclePrice := 12000, vehicleCost := 10000
    taxRate := 0.07, fees := 500, downPayment := 1500, tradeAllowance := 0
    tradePayoff := 0, backendProducts := ⟨false, false, 0⟩
    customerCreditTier := .subprime, targetPayment := 350, paymentTolerance := 50
    preferredTermMonths := none, monthlyIncome := none }

/-- A lender whose only Kia preference has no year range: it matches the make
but does not "cover" the theft-risk year combination. -/
def c4bLender : LenderConfig :=
  { id := "lender-c4b", name := "Lender C4B", active := true, allowedTerms := [60]
    minAmountFinanced := 0, maxAmountFinanced := 100000, maxBackendTotal := 3000
    maxBackendPercentOfAmount := 100, maxVehicleAgeYears := 30, maxMiles := 300000
    lenderFeePercent := 0, pricingGrid := []
    vehicleRestrictions := ⟨30, 300000, []⟩
    vehiclePreferences := [⟨"Kia", 0.85, some "Make Risk", none⟩]
    validateDeal := fun _ _ => ⟨true, []⟩ }

def c2Deal : DealInput :=
  { vehicleId := "veh-2", vehicleYear := 2020, vehicleMake := "Toyota"
    vehicleMileage := 50000, vehiclePrice := 0, vehicleCost := 0
    taxRate := 0.07, fees := 500, downPayment := 0, tradeAllowance := 0
    tradePayoff := 0, backendProducts := ⟨false, false, 0⟩
    customerCreditTier := .subprime, targetPayment := 400, paymentTolerance := 50
    preferredTermMonths := none, monthlyIncome := none }

def c2Lender : LenderConfig :=
  { id := "lender-c2", name := "Lender C2", active := true, allowedTerms := [60]
    minAmountFinanced := 0, maxAmountFinanced := 100000, maxBackendTotal := 3000
    maxBackendPercentOfAmount := 100, maxVehicleAgeYears := 30, maxMiles := 300000
    lenderFeePercent := 0, pricingGrid := [⟨.subprime, 18, 23, 0.1, 115, 140, 140⟩]
    vehicleRestrictions := ⟨30, 300000, []⟩
    vehiclePreferences := []
    validateDeal := fun _ _ => ⟨true, []⟩ }

def c2TierRow : LenderTierPricing := ⟨.subprime, 18, 23, 0.1, 115, 140, 140⟩

def c2Risk : RiskAssessment := ⟨false, 0, false, none, 0, 0, false, false⟩

def c2Elig : VehicleEligibilityResult := ⟨true, [], 1, []⟩

def c2Scenario : BackendScenario := ⟨"Optimal Coverage", 0, false, false, .optimal⟩

def c5Deal : DealInput :=
  { vehicleId := "veh-5", vehicleYear := 2024, vehicleMake := "Toyota"
    vehicleMileage := 10000, vehiclePrice := 20000, vehicleCost := 18000
    taxRate := 0, fees := 0, downPayment := 5000, tradeAllowance := 0
    tradePayoff := 0, backendProducts := ⟨false, false, 0⟩
    customerCreditTier := .subprime, targetPayment := 400, paymentTolerance := 50
    preferredTermMonths := none, monthlyIncome := none }

def c5Lender : LenderConfig :=
  { id := "lender-c5", name := "Lender C5", active := true, allowedTerms := [60]
    minAmountFinanced := 0, maxAmountFinanced := 100000, maxBackendTotal := 3500
    maxBackendPercentOfAmount := 100, maxVehicleAgeYears := 30, maxMiles := 300000
    lenderFeePercent := 0, pricingGrid := []
    vehicleRestrictions := ⟨30, 300000, []⟩
    vehiclePreferences := []
    validateDeal := fun _ _ => ⟨true, []⟩ }

def c5wDeal : DealInput :=
  { vehicleId := "veh-5w", vehicleYear := 2015, vehicleMake := "Toyota"
    vehicleMileage := 90000, vehiclePrice := 12000, vehicleCost := 10000
    taxRate := 0, fees := 0, downPayment := 1000, tradeAllowance := 0
    tradePayoff := 0, backendProducts := ⟨true, true, 0⟩
    customerCreditTier := .subprime, targetPayment := 300, paymentTolerance := 50
    preferredTermMonths := none, monthlyIncome := none }

def c5wRisk : RiskAssessment := ⟨false, 0, false, none, 0, 0, false, true⟩

def c5wLender : LenderConfig :=
  { id := "lender-c5w", name := "Lender C5W", active := true, allowedTerms := [60]
    minAmountFinanced := 0, maxAmountFinanced := 100000, maxBackendTotal := 3500
    maxBackendPercentOfAmount := 100, maxVehicleAgeYears := 30, maxMiles := 300000
    lenderFeePercent := 0, pricingGrid := []
    vehicleRestrictions := ⟨30, 300000, []⟩
    vehiclePreferences := []
    validateDeal := fun _ _ => ⟨true, []⟩ }

def c5wScenario : BackendScenario := ⟨"GAP Only", 900, true, false, .vsc_stripped⟩

def c6Cand : DealCandidate :=
  { lenderId := "westlake", lenderName := "Westlake Financial", termMonths := 60
    apr := 20.5, amountFinanced := 20000, payment := 500, netCheckToDealer := 15000
    dealerFrontGross := 2000, dealerBackEndGross := 900, dealerProfit := 3000
    totalDown := 2000, backendTotal := 900, ltv := 200, withinGuidelines := true
    reasons := [], adjustments := [], hasGap := true, hasVsc := true, smartNote := ""
    productRecommendation := none, riskAssessment := none
    optimizationLevel := .optimal, vehicleWarnings := [], advanceMultiplier := 1
    ptiPercent := none, ptiWarning := none, ptiExceedsLimit := false
    requiredIncome := none }

def c6Rules : BankRules := determineBankRules 120000 150 "subprime"

/-- The mileage-depreciation factor as described by the spec: ordered 30k
brackets from 1.00 down to 0.75, fallback 0.70 above the top bracket. -/
def mileageFactorSpec (mileage : ℤ) : ℚ :=
  if mileage ≤ 30000 then 1.00
  else if mileage ≤ 60000 then 0.95
  else if mileage ≤ 90000 then 0.90
  else if mileage ≤ 120000 then 0.85
  else if mileage ≤ 150000 then 0.80
  else if mileage ≤ 180000 then 0.75
  else 0.70

/-! ### Helper lemmas -/

theorem foldl_min_le (l : List ℚ) (a : ℚ) : l.foldl min a ≤ a := by
  induction l generalizing a with
  | nil => simp
  | cons x xs ih => exact le_trans (ih (min a x)) (min_le_left a x)

theorem foldl_min_min (a b : ℚ) (l : List ℚ) :
    l.foldl min (min a b) = min a (l.foldl min b) := by
  induction l generalizing b with
  | nil => simp
  | cons x xs ih =>
    simp only [List.foldl_cons]
    rw [min_assoc, ih]

theorem foldl_min_one_eq (l : List ℚ) :
    l.foldl min 1 = min 1 (specMinMultiplier l) := by
  cases l with
  | nil => simp [specMinMultiplier]
  | cons m rest =>
    simp only [specMinMultiplier, List.foldl_cons]
    exact foldl_min_min 1 m rest

theorem matchingMultipliers_cons (nm : String) (y : ℤ) (p : VehiclePreference)
    (rest : List VehiclePreference) :
    matchingMultipliers nm y (p :: rest) =
      if jsToLower p.make = jsToLower nm ∧ yearRangeContains p.yearRange y then
        p.multiplier :: matchingMultipliers nm y rest
      else matchingMultipliers nm y rest := by
  by_cases hc : jsToLower p.make = jsToLower nm ∧ yearRangeContains p.yearRange y
  · simp [matchingMultipliers, List.filter_cons, hc]
  · simp [matchingMultipliers, List.filter_cons, hc]

/-- The preference loop's final multiplier is the fold of `min` over the
matching preferences' multipliers. -/
theorem prefFold_fst (prefs : List VehiclePreference) (nm : String) (y : ℤ)
    (m : ℚ) (ws : List String) :
    (prefs.foldl (prefStep nm y) (m, ws)).1 =
      (matchingMultipliers nm y prefs).foldl min m := by
  induction prefs generalizing m ws with
  | nil => simp [matchingMultipliers]
  | cons p rest ih =>
    rw [List.foldl_cons, matchingMultipliers_cons]
    by_cases hc : jsToLower p.make = jsToLower nm ∧ yearRangeContains p.yearRange y
    · rw [if_pos hc]
      have hstep : ∃ ws', prefStep nm y (m, ws) p = (min m p.multiplier, ws') := by
        simp only [prefStep, if_pos hc.1, if_pos hc.2]
        exact ⟨_, rfl⟩
      rcases hstep with ⟨ws', hws'⟩
      rw [hws', List.foldl_cons]
      exact ih (min m p.multiplier) ws'
    · rw [if_neg hc]
      have hstep : prefStep nm y (m, ws) p = (m, ws) := by
        simp only [prefStep]
        by_cases hmk : jsToLower p.make = jsToLower nm
        · have hyr : ¬ yearRangeContains p.yearRange y := fun hy => hc ⟨hmk, hy⟩
          rw [if_pos hmk, if_neg hyr]
        · rw [if_neg hmk]
      rw [hstep]
      exact ih m ws

/-- Every warning appended by the preference loop ends in "% advance)". -/
theorem prefFold_mem_snd (prefs : List VehiclePreference) (nm : String) (y : ℤ)
    (m : ℚ) (ws : List String) (w : String)
    (hw : w ∈ (prefs.foldl (prefStep nm y) (m, ws)).2) :
    w ∈ ws ∨ "% advance)".data <:+ w.data := by
  induction prefs generalizing m ws with
  | nil => exact Or.inl (by simpa using hw)
  | cons p rest ih =>
    rw [List.foldl_cons] at hw
    have hsuff : ∀ (u v : String), "% advance)".data <:+ v.data →
        "% advance)".data <:+ (u ++ v).data := by
      intro u v h
      rw [String.data_append]
      exact h.trans (List.suffix_append u.data v.data)
    have hbase : ∀ (x : String), "% advance)".data <:+ (x ++ "% advance)").data := by
      intro x
      rw [String.data_append]
      exact List.suffix_append x.data _
    by_cases hmk : jsToLower p.make = jsToLower nm
    · by_cases hyr : yearRangeContains p.yearRange y
      · simp only [prefStep, if_pos hmk, if_pos hyr] at hw
        by_cases hlt : p.multiplier < 1
        · rw [if_pos hlt] at hw
          rcases ih _ _ hw with h | h
          · rcases List.mem_append.1 h with h2 | h2
            · exact Or.inl h2
            · right
              rw [List.mem_singleton.1 h2]
              exact hbase _
          · exact Or.inr h
        · rw [if_neg hlt] at hw
          by_cases hgt : p.multiplier > 1
          · rw [if_pos hgt] at hw
            rcases ih _ _ hw with h | h
            · rcases List.mem_append.1 h with h2 | h2
              · exact Or.inl h2
              · right
                rw [List.mem_singleton.1 h2]
                exact hbase _
            · exact Or.inr h
          · rw [if_neg hgt] at hw
            exact ih _ _ hw
      · simp only [prefStep, if_pos hmk, if_neg hyr] at hw
        exact ih _ _ hw
    · simp only [prefStep, if_neg hmk] at hw
      exact ih _ _ hw

/-- The theft-risk warning does not end in "% advance)", hence is distinct
from every preference warning. -/
theorem theft_not_advance_suffix (nm : String) (y : ℤ) :
    ¬ "% advance)".data <:+ (theftWarningString nm y).data := by
  intro h
  have hlit : " (2011-2021 models lack immobilizers)".data <:+
      (theftWarningString nm y).data := by
    simp only [theftWarningString, String.data_append]
    exact List.suffix_append _ _
  rcases List.suffix_or_suffix_of_suffix h hlit with h2 | h2
  · exact absurd h2 (by decide)
  · have := h2.length_le
    simp at this

theorem candLE_total (t : ℚ) (a b : DealCandidate) : candLE t a b ∨ candLE t b a := by
  unfold candLE
  rcases lt_trichotomy a.netCheckToDealer b.netCheckToDealer with h | h | h
  · exact Or.inr (Or.inl h)
  · rcases le_total |a.payment - t| |b.payment - t| with hg | hg
    · exact Or.inl (Or.inr ⟨h.symm, hg⟩)
    · exact Or.inr (Or.inr ⟨h, hg⟩)
  · exact Or.inl (Or.inl h)

theorem candLE_trans (t : ℚ) (a b c : DealCandidate)
    (hab : candLE t a b) (hbc : candLE t b c) : candLE t a c := by
  unfold candLE at *
  rcases hab with h1 | ⟨h1, g1⟩
  · rcases hbc with h2 | ⟨h2, g2⟩
    · exact Or.inl (h2.trans h1)
    · exact Or.inl (h2 ▸ h1)
  · rcases hbc with h2 | ⟨h2, g2⟩
    · exact Or.inl (h1 ▸ h2)
    · exact Or.inr ⟨h2.trans h1, g1.trans g2⟩

theorem filterCompliant_valid_mem (deals : List DealCandidate) (rules : BankRules)
    (d : DealCandidate) (hd : d ∈ (filterCompliantDeals deals rules).validDeals) :
    candViolations d rules = [] := by
  induction deals with
  | nil => simp [filterCompliantDeals] at hd
  | cons x rest ih =>
    rw [filterCompliantDeals] at hd
    by_cases hx : candViolations x rules = []
    · rw [if_pos hx] at hd
      rcases List.mem_cons.1 hd with h | h
      · rw [h]; exact hx
      · exact ih h
    · rw [if_neg hx] at hd
      exact ih hd

theorem filterCompliant_rejected_mem (deals : List DealCandidate) (rules : BankRules)
    (d : DealCandidate) (hd : d ∈ deals) (hv : candViolations d rules ≠ []) :
    ∃ e ∈ (filterCompliantDeals deals rules).rejectedDeals,
      e.deal = d ∧ e.violations = candViolations d rules := by
  induction deals with
  | nil => simp at hd
  | cons x rest ih =>
    rw [filterCompliantDeals]
    rcases List.mem_cons.1 hd with h | h
    · subst h
      rw [if_neg hv]
      exact ⟨⟨d, candViolations d rules⟩, List.mem_cons_self _ _, rfl, rfl⟩
    · rcases ih h with ⟨e, he, hed, hev⟩
      by_cases hx : candViolations x rules = []
      · rw [if_pos hx]
        exact ⟨e, he, hed, hev⟩
      · rw [if_neg hx]
        exact ⟨e, List.mem_cons_of_mem _ he, hed, hev⟩

theorem filterCompliant_perm (deals : List DealCandidate) (rules : BankRules) :
    ((filterCompliantDeals deals rules).validDeals ++
      (filterCompliantDeals deals rules).rejectedDeals.map RejectedDeal.deal).Perm deals := by
  induction deals with
  | nil => simp [filterCompliantDeals]
  | cons x rest ih =>
    rw [filterCompliantDeals]
    by_cases hx : candViolations x rules = []
    · rw [if_pos hx]
      simp only [List.cons_append]
      exact ih.cons x
    · rw [if_neg hx]
      refine List.Perm.trans ?_ (ih.cons x)
      simp only [List.map_cons]
      exact List.perm_middle

/-! ### Claim theorems -/

/-- C9: for every deal input (any sign combination of price, tax rate, fees,
backend total, down payment, trade allowance, trade payoff), the computed
amount financed equals (price + price*taxRate + fees + backendTotal) minus
(downPayment + tradeAllowance - tradePayoff) floored at 0, and is therefore
never negative. -/
theorem C9_amount_financed (deal : DealInput) (backendTotal : ℚ) :
    computeAmountFinanced deal backendTotal =
      max ((deal.vehiclePrice + deal.vehiclePrice * deal.taxRate + deal.fees + backendTotal) -
        (deal.downPayment + deal.tradeAllowance - deal.tradePayoff)) 0 ∧
    0 ≤ computeAmountFinanced deal backendTotal := by
  refine ⟨rfl, ?_⟩
  unfold computeAmountFinanced
  exact le_max_right _ _

/-- C8: runRehash is a deterministic pure function of its explicit inputs
(the ambient clock year being one of them in this embedding): two invocations
on identical inputs give identical results, including the identical ordering
of allCandidates. -/
theorem C8_deterministic (currentYear : ℤ) (deal : DealInput) (lenders : List LenderConfig) :
    runRehash currentYear deal lenders = runRehash currentYear deal lenders ∧
    (runRehash currentYear deal lenders).allCandidates =
      (runRehash currentYear deal lenders).allCandidates ∧
    (runRehash currentYear deal lenders).bestDeal =
      (runRehash currentYear deal lenders).bestDeal :=
  ⟨rfl, rfl, rfl⟩

theorem age_factor_eq (age : ℤ) (hage : 0 ≤ age) :
    (DEPRECIATION_SCHEDULE (min age 10)).getD 0.35 = ageFactorSpec age := by
  by_cases h10 : 10 ≤ age
  · rw [min_eq_right h10]
    simp [DEPRECIATION_SCHEDULE, ageFactorSpec, h10]
  · have hlt : age < 10 := lt_of_not_le h10
    interval_cases age <;> rfl

theorem mileage_factor_eq (m : ℤ) :
    ((MILEAGE_DEPRECIATION_BRACKETS.find? (fun b => decide (m ≤ b.maxMiles))).map
      MileageBracket.factor).getD 0.70 = mileageFactorSpec m := by
  unfold MILEAGE_DEPRECIATION_BRACKETS mileageFactorSpec
  by_cases h1 : m ≤ 30000
  · rw [List.find?_cons_of_pos _ (by simpa using h1)]
    simp [h1]
  · rw [List.find?_cons_of_neg _ (by simpa using h1)]
    by_cases h2 : m ≤ 60000
    · rw [List.find?_cons_of_pos _ (by simpa using h2)]
      simp [h1, h2]
    · rw [List.find?_cons_of_neg _ (by simpa using h2)]
      by_cases h3 : m ≤ 90000
      · rw [List.find?_cons_of_pos _ (by simpa using h3)]
        simp [h1, h2, h3]
      · rw [List.find?_cons_of_neg _ (by simpa using h3)]
        by_cases h4 : m ≤ 120000
        · rw [List.find?_cons_of_pos _ (by simpa using h4)]
          simp [h1, h2, h3, h4]
        · rw [List.find?_cons_of_neg _ (by simpa using h4)]
          by_cases h5 : m ≤ 150000
          · rw [List.find?_cons_of_pos _ (by simpa using h5)]
            simp [h1, h2, h3, h4, h5]
          · rw [List.find?_cons_of_neg _ (by simpa using h5)]
            by_cases h6 : m ≤ 180000
            · rw [List.find?_cons_of_pos _ (by simpa using h6)]
              simp [h1, h2, h3, h4, h5, h6]
            · rw [List.find?_cons_of_neg _ (by simpa using h6)]
              simp [h1, h2, h3, h4, h5, h6]

set_option maxHeartbeats 1000000 in
theorem ageFactorSpec_pos (age : ℤ) : 0 < ageFactorSpec age := by
  unfold ageFactorSpec
  split_ifs <;> norm_num

set_option maxHeartbeats 1000000 in
theorem mileageFactorSpec_pos (m : ℤ) : 0 < mileageFactorSpec m := by
  unfold mileageFactorSpec
  split_ifs <;> norm_num

/-- C7: for every non-negative retail price, age, and mileage,
calculateBookValue returns round(retail x ageFactor x mileageFactor) with the
age factor from the fixed schedule (ages above 10 clamped to age 10) and the
mileage factor from the ordered brackets with fallback 0.70; the result is
never negative, and calculateBookValue(p, 0, 0) = p for every non-negative
integer price p. -/
theorem C7_book_value (p : ℚ) (age mileage : ℤ)
    (hp : 0 ≤ p) (hage : 0 ≤ age) (_hm : 0 ≤ mileage) :
    calculateBookValue p age mileage =
      jsRound (p * ageFactorSpec age * mileageFactorSpec mileage) ∧
    0 ≤ calculateBookValue p age mileage ∧
    (10 ≤ age → calculateBookValue p age mileage = calculateBookValue p 10 mileage) ∧
    (∀ k : ℕ, calculateBookValue (k : ℚ) 0 0 = (k : ℤ)) := by
  have heq : calculateBookValue p age mileage =
      jsRound (p * ageFactorSpec age * mileageFactorSpec mileage) := by
    simp only [calculateBookValue]
    rw [age_factor_eq age hage, mileage_factor_eq mileage]
  refine ⟨heq, ?_, ?_, ?_⟩
  · rw [heq]
    unfold jsRound
    have hprod : 0 ≤ p * ageFactorSpec age * mileageFactorSpec mileage :=
      mul_nonneg (mul_nonneg hp (ageFactorSpec_pos age).le) (mileageFactorSpec_pos mileage).le
    have : (0 : ℚ) ≤ p * ageFactorSpec age * mileageFactorSpec mileage + 1/2 := by linarith
    exact Int.floor_nonneg.2 this
  · intro h10
    simp only [calculateBookValue]
    rw [min_eq_right h10]
    norm_num
  · intro k
    simp only [calculateBookValue]
    rw [age_factor_eq 0 le_rfl, mileage_factor_eq 0]
    have ha : ageFactorSpec 0 = 1 := by norm_num [ageFactorSpec]
    have hb : mileageFactorSpec 0 = 1 := by norm_num [mileageFactorSpec]
    rw [ha, hb, mul_one, mul_one]
    unfold jsRound
    have hcast : ((k : ℚ)) = (((k : ℤ) : ℚ)) := by push_cast; ring
    rw [hcast, Int.floor_int_add]
    norm_num [Int.floor_eq_iff]

/-- Witness for C7 at a concrete input. -/
theorem C7_witness :
    (0 ≤ (1000 : ℚ)) ∧ (0 ≤ (3 : ℤ)) ∧ (0 ≤ (50000 : ℤ)) ∧
    (calculateBookValue 1000 3 50000 =
        jsRound (1000 * ageFactorSpec 3 * mileageFactorSpec 50000) ∧
      0 ≤ calculateBookValue 1000 3 50000 ∧
      (10 ≤ (3 : ℤ) → calculateBookValue 1000 3 50000 = calculateBookValue 1000 10 50000) ∧
      (∀ k : ℕ, calculateBookValue (k : ℚ) 0 0 = (k : ℤ))) :=
  ⟨by norm_num, by norm_num, by norm_num,
    C7_book_value 1000 3 50000 (by norm_num) (by norm_num) (by norm_num)⟩

/-- C10: the advance multiplier returned by the vehicle-eligibility check is
at most 1.0 for every deal and lender configuration; in particular the shipped
Westlake Honda bonus preference (multiplier 1.08) still yields multiplier 1.0
while its bonus warning string is emitted. -/
theorem C10_multiplier_capped :
    (∀ (currentYear : ℤ) (deal : DealInput) (lender : LenderConfig),
      (isVehicleEligible currentYear deal lender).advanceMultiplier ≤ 1) ∧
    westlakeConfig ∈ LENDERS ∧
    (isVehicleEligible 2025 c10HondaDeal westlakeConfig).advanceMultiplier = 1 ∧
    (isVehicleEligible 2025 c10HondaDeal westlakeConfig).warnings =
      ["Preferred Make Bonus: Honda (+8% advance)"] := by
  refine ⟨?_, by simp [LENDERS], by with_unfolding_all rfl, by with_unfolding_all rfl⟩
  intro currentYear deal lender
  simp only [isVehicleEligible]
  rw [apply_ite VehicleEligibilityResult.advanceMultiplier]
  dsimp only
  split_ifs
  · norm_num
  · rw [prefFold_fst]
    exact foldl_min_le _ 1

/-- C1 counterexample: with exactly one matching preference of multiplier
1.08, the minimum multiplier among matching preferences is 1.08, but the
eligibility check returns advanceMultiplier 1.0, not 1.08. -/
theorem C1_counterexample :
    specMinMultiplier (matchingMultipliers (jsTrim c1Deal.vehicleMake) c1Deal.vehicleYear
      c1Lender.vehiclePreferences) = 1.08 ∧
    (isVehicleEligible 2025 c1Deal c1Lender).advanceMultiplier = 1 ∧
    ((1 : ℚ) ≠ 1.08) :=
  ⟨by with_unfolding_all rfl, by with_unfolding_all rfl, by norm_num⟩

/-- C1 (amended): the effective advanceMultiplier equals the minimum of 1.0
and the minimum multiplier among the matching preferences (so a bonus
multiplier above 1.0 is capped at 1.0, and the default is 1.0 when no
preference matches), except that the Kia/Hyundai theft-risk rule forces 0.90
when it applies and the multiplier is still neutral. -/
theorem C1_advance_multiplier (currentYear : ℤ) (deal : DealInput) (lender : LenderConfig) :
    (isVehicleEligible currentYear deal lender).advanceMultiplier =
      (if ((∃ m ∈ THEFT_RISK_MAKES, jsToLower m = jsToLower (jsTrim deal.vehicleMake)) ∧
          (THEFT_RISK_YEAR_START ≤ deal.vehicleYear ∧
            deal.vehicleYear ≤ THEFT_RISK_YEAR_END)) ∧
         ((¬ ∃ p ∈ lender.vehiclePreferences,
            coversTheftYear p (jsTrim deal.vehicleMake) deal.vehicleYear) ∧
          min 1 (specMinMultiplier (matchingMultipliers (jsTrim deal.vehicleMake)
            deal.vehicleYear lender.vehiclePreferences)) = 1)
       then 0.90
       else
        min 1 (specMinMultiplier (matchingMultipliers (jsTrim deal.vehicleMake)
          deal.vehicleYear lender.vehiclePreferences))) := by
  simp only [isVehicleEligible]
  rw [apply_ite VehicleEligibilityResult.advanceMultiplier]
  dsimp only
  rw [prefFold_fst, foldl_min_one_eq]

/-- C4 (amended): for a theft-risk make and year, when no preference covers
that year AND the preference scan left the multiplier neutral (still 1.0),
the eligibility check returns exactly a 0.90 multiplier and exactly one
theft-risk warning; and when a covering preference does exist, the 0.90
penalty is not applied on top of it (the multiplier is the capped minimum of
the matching preference multipliers). -/
theorem C4_theft_penalty (currentYear : ℤ) (deal : DealInput) (lender : LenderConfig)
    (hmake : ∃ m ∈ THEFT_RISK_MAKES, jsToLower m = jsToLower (jsTrim deal.vehicleMake))
    (hyear : THEFT_RISK_YEAR_START ≤ deal.vehicleYear ∧
      deal.vehicleYear ≤ THEFT_RISK_YEAR_END) :
    ((¬ ∃ p ∈ lender.vehiclePreferences,
        coversTheftYear p (jsTrim deal.vehicleMake) deal.vehicleYear) →
      min 1 (specMinMultiplier (matchingMultipliers (jsTrim deal.vehicleMake)
        deal.vehicleYear lender.vehiclePreferences)) = 1 →
      (isVehicleEligible currentYear deal lender).advanceMultiplier = 0.90 ∧
      ((isVehicleEligible currentYear deal lender).warnings.count
        (theftWarningString (jsTrim deal.vehicleMake) deal.vehicleYear)) = 1) ∧
    ((∃ p ∈ lender.vehiclePreferences,
        coversTheftYear p (jsTrim deal.vehicleMake) deal.vehicleYear) →
      (isVehicleEligible currentYear deal lender).advanceMultiplier =
        min 1 (specMinMultiplier (matchingMultipliers (jsTrim deal.vehicleMake)
          deal.vehicleYear lender.vehiclePreferences))) := by
  constructor
  · intro hcover hneutral
    have hfold : (lender.vehiclePreferences.foldl
        (prefStep (jsTrim deal.vehicleMake) deal.vehicleYear) (1, [])).1 = 1 := by
      rw [prefFold_fst, foldl_min_one_eq]
      exact hneutral
    simp only [isVehicleEligible]
    rw [if_pos ⟨⟨hmake, hyear⟩, hcover, hfold⟩]
    refine ⟨rfl, ?_⟩
    dsimp only
    rw [List.count_append]
    have hnot : theftWarningString (jsTrim deal.vehicleMake) deal.vehicleYear ∉
        (lender.vehiclePreferences.foldl
          (prefStep (jsTrim deal.vehicleMake) deal.vehicleYear)
          ((1 : ℚ), ([] : List String))).2 := by
      intro hmem
      rcases prefFold_mem_snd _ _ _ _ _ _ hmem with h | h
      · simp at h
      · exact theft_not_advance_suffix _ _ h
    rw [List.count_eq_zero.2 hnot]
    simp
  · intro hcover
    simp only [isVehicleEligible]
    rw [apply_ite VehicleEligibilityResult.advanceMultiplier]
    dsimp only
    rw [prefFold_fst, foldl_min_one_eq]
    rw [if_neg (fun hcond => hcond.2.1 hcover)]

/-- Witness for C4 at a concrete Kia 2015 deal and a lender with no
preferences. -/
theorem C4_witness :
    ((∃ m ∈ THEFT_RISK_MAKES, jsToLower m = jsToLower (jsTrim c4Deal.vehicleMake)) ∧
     (THEFT_RISK_YEAR_START ≤ c4Deal.vehicleYear ∧
       c4Deal.vehicleYear ≤ THEFT_RISK_YEAR_END) ∧
     (¬ ∃ p ∈ c4Lender.vehiclePreferences,
       coversTheftYear p (jsTrim c4Deal.vehicleMake) c4Deal.vehicleYear) ∧
     min 1 (specMinMultiplier (matchingMultipliers (jsTrim c4Deal.vehicleMake)
       c4Deal.vehicleYear c4Lender.vehiclePreferences)) = 1) ∧
    ((isVehicleEligible 2025 c4Deal c4Lender).advanceMultiplier = 0.90 ∧
     ((isVehicleEligible 2025 c4Deal c4Lender).warnings.count
       (theftWarningString (jsTrim c4Deal.vehicleMake) c4Deal.vehicleYear)) = 1) :=
  ⟨⟨by decide, by decide, by decide, by with_unfolding_all rfl⟩,
    (C4_theft_penalty 2025 c4Deal c4Lender (by decide) (by decide)).1 (by decide)
      (by with_unfolding_all rfl)⟩

/-- C4 counterexample: a Kia 2015 against a lender with no preference whose
year range covers 2015 (its only Kia preference has no year range), yet the
returned multiplier is 0.85, not 0.90, and no theft-risk warning is
emitted. -/
theorem C4_counterexample :
    (∃ m ∈ THEFT_RISK_MAKES, jsToLower m = jsToLower (jsTrim c4bDeal.vehicleMake)) ∧
    (THEFT_RISK_YEAR_START ≤ c4bDeal.vehicleYear ∧
      c4bDeal.vehicleYear ≤ THEFT_RISK_YEAR_END) ∧
    (¬ ∃ p ∈ c4bLender.vehiclePreferences,
      coversTheftYear p (jsTrim c4bDeal.vehicleMake) c4bDeal.vehicleYear) ∧
    (isVehicleEligible 2025 c4bDeal c4bLender).advanceMultiplier = 0.85 ∧
    ((0.85 : ℚ) ≠ 0.90) ∧
    ((isVehicleEligible 2025 c4bDeal c4bLender).warnings.count
      (theftWarningString (jsTrim c4bDeal.vehicleMake) c4bDeal.vehicleYear)) = 0 :=
  ⟨by decide, by decide, by decide, by with_unfolding_all rfl, by norm_num,
    by with_unfolding_all rfl⟩

/-- C2 counterexample: with a zero book value, the per-deal risk assessment
represents the undefined LTV as 0, not as the 999 sentinel the claim
asserts for every derivation site. -/
theorem C2_counterexample :
    calculateBookValue c2Deal.vehiclePrice (2025 - c2Deal.vehicleYear)
      c2Deal.vehicleMileage ≤ 0 ∧
    (assessRisk 2025 c2Deal).ltvPercent = 0 ∧
    ((0 : ℚ) ≠ 999) :=
  ⟨by with_unfolding_all decide, by with_unfolding_all rfl, by norm_num⟩

/-- C2 (amended): when the computed book value is nonpositive, no LTV
computation divides by it; the candidate LTV filter and the advance/net-check
estimation use the 999 sentinel (so a capped tier row rejects the candidate),
while the per-deal risk assessment uses the sentinel 0 instead. -/
theorem C2_zero_book_value (currentYear : ℤ) (deal : DealInput) (lender : LenderConfig)
    (tierRow : LenderTierPricing) (amountFinanced backendTotal advanceMultiplier : ℚ)
    (riskAssessment : RiskAssessment) (eligibility : VehicleEligibilityResult)
    (apr : ℚ) (term : ℕ) (down : ℚ) (scenario : BackendScenario)
    (hbv : calculateBookValue deal.vehiclePrice (currentYear - deal.vehicleYear)
      deal.vehicleMileage ≤ 0)
    (hcap : tierRow.maxLtvPercent < 999) :
    (assessRisk currentYear deal).ltvPercent = 0 ∧
    (estimateNetCheckAndProfit currentYear deal lender tierRow amountFinanced backendTotal
      advanceMultiplier).ltv = 999 ∧
    mkCandidate currentYear deal riskAssessment eligibility lender tierRow apr term down
      scenario = none := by
  have hq : ¬ (((calculateBookValue deal.vehiclePrice (currentYear - deal.vehicleYear)
      deal.vehicleMileage : ℤ) : ℚ) > 0) := by
    rw [not_lt]
    exact_mod_cast hbv
  refine ⟨?_, ?_, ?_⟩
  · simp only [assessRisk]
    rw [if_neg hq]
  · simp only [estimateNetCheckAndProfit]
    rw [if_neg hq]
  · simp only [mkCandidate]
    rw [if_neg hq, if_pos (show (999 : ℚ) > tierRow.maxLtvPercent from hcap)]
    split_ifs <;> rfl

/-- Witness for C2 at a concrete zero-price deal. -/
theorem C2_witness :
    (calculateBookValue c2Deal.vehiclePrice (2025 - c2Deal.vehicleYear)
      c2Deal.vehicleMileage ≤ 0) ∧
    (c2TierRow.maxLtvPercent < 999) ∧
    ((assessRisk 2025 c2Deal).ltvPercent = 0 ∧
     (estimateNetCheckAndProfit 2025 c2Deal c2Lender c2TierRow 10000 0 1).ltv = 999 ∧
     mkCandidate 2025 c2Deal c2Risk c2Elig c2Lender c2TierRow 20 60 2000 c2Scenario = none) :=
  ⟨by with_unfolding_all decide, by with_unfolding_all decide,
    C2_zero_book_value 2025 c2Deal c2Lender c2TierRow 10000 0 1 c2Risk c2Elig 20 60 2000
      c2Scenario (by with_unfolding_all decide) (by with_unfolding_all decide)⟩

/-- C5 (amended): the backend-scenario builder emits the optimal scenario,
then the VSC-stripped scenario exactly when the optimal scenario includes
VSC (keeping GAP if optimal did), then the all-stripped scenario — so three
scenarios when optimal includes VSC and two otherwise. -/
theorem C5_backend_scenarios (deal : DealInput) (riskAssessment : RiskAssessment)
    (lender : LenderConfig) :
    ((buildSmartScenarios deal riskAssessment lender).map BackendScenario.optimizationLevel =
      (if riskAssessment.recommendVsc || deal.backendProducts.vsc then
        [OptimizationLevel.optimal, OptimizationLevel.vsc_stripped,
          OptimizationLevel.all_stripped]
       else [OptimizationLevel.optimal, OptimizationLevel.all_stripped])) ∧
    (∀ sc ∈ buildSmartScenarios deal riskAssessment lender,
      sc.optimizationLevel = OptimizationLevel.vsc_stripped →
        sc.hasGap = (riskAssessment.recommendGap || deal.backendProducts.gap) ∧
        sc.hasVsc = false) := by
  constructor
  · cases hv : (riskAssessment.recommendVsc || deal.backendProducts.vsc) <;>
      simp [buildSmartScenarios, hv]
  · intro sc hsc hl
    rw [buildSmartScenarios] at hsc
    cases hv : (riskAssessment.recommendVsc || deal.backendProducts.vsc) <;>
        rw [hv] at hsc <;> simp at hsc
    · rcases hsc with h | h <;> rw [h] at hl ⊢ <;> simp at hl
    · rcases hsc with h | h | h <;> rw [h] at hl ⊢ <;> try simp at hl
      simp

/-- C5 counterexample: for an in-warranty vehicle with no VSC requested, the
optimal scenario has no VSC and the builder emits exactly two scenarios, not
three. -/
theorem C5_counterexample :
    (assessRisk 2025 c5Deal).recommendVsc = false ∧
    c5Deal.backendProducts.vsc = false ∧
    (buildSmartScenarios c5Deal (assessRisk 2025 c5Deal) c5Lender).length = 2 ∧
    (2 ≠ 3) :=
  ⟨by with_unfolding_all rfl, rfl, by with_unfolding_all rfl, by norm_num⟩

set_option maxRecDepth 4000 in
/-- Witness for C5: in a scenario list whose optimal scenario includes VSC,
the VSC-stripped scenario keeps GAP and drops VSC. -/
theorem C5_witness :
    (c5wScenario ∈ buildSmartScenarios c5wDeal c5wRisk c5wLender) ∧
    (c5wScenario.optimizationLevel = OptimizationLevel.vsc_stripped) ∧
    (c5wScenario.hasGap = (c5wRisk.recommendGap || c5wDeal.backendProducts.gap) ∧
     c5wScenario.hasVsc = false) :=
  ⟨by with_unfolding_all decide, rfl,
    (C5_backend_scenarios c5wDeal c5wRisk c5wLender).2 c5wScenario
      (by with_unfolding_all decide) rfl⟩

/-- C6: determineBankRules sets mandatoryVsc exactly when mileage exceeds
100,000, mandatoryGap exactly when LTV exceeds 110, and the per-tier LTV cap
from its fixed table; filterCompliantDeals places every candidate whose ltv
exceeds the rules' cap into rejectedDeals with an LTV violation reason
(never into validDeals), and the two output lists partition the input. -/
theorem C6_compliance (deals : List DealCandidate) (rules : BankRules) (d : DealCandidate)
    (hmem : d ∈ deals) (hltv : d.ltv > rules.ltvCap) :
    (∀ (m : ℤ) (l : ℚ) (t : String),
      ((determineBankRules m l t).mandatoryVsc = true ↔ 100000 < m) ∧
      ((determineBankRules m l t).mandatoryGap = true ↔ 110 < l)) ∧
    (∀ (m : ℤ) (l : ℚ),
      (determineBankRules m l "prime").ltvCap = 130 ∧
      (determineBankRules m l "near_prime").ltvCap = 125 ∧
      (determineBankRules m l "subprime").ltvCap = 120 ∧
      (determineBankRules m l "deep_subprime").ltvCap = 115) ∧
    (∃ e ∈ (filterCompliantDeals deals rules).rejectedDeals,
      e.deal = d ∧ ltvViolationString d rules ∈ e.violations) ∧
    d ∉ (filterCompliantDeals deals rules).validDeals ∧
    ((filterCompliantDeals deals rules).validDeals ++
      (filterCompliantDeals deals rules).rejectedDeals.map RejectedDeal.deal).Perm deals := by
  have hhead : ltvViolationString d rules ∈ candViolations d rules := by
    simp [candViolations, hltv]
  have hne : candViolations d rules ≠ [] := by
    intro h
    rw [h] at hhead
    simp at hhead
  refine ⟨?_, ?_, ?_, ?_, filterCompliant_perm deals rules⟩
  · intro m l t
    constructor <;> simp [determineBankRules]
  · intro m l
    refine ⟨?_, ?_, ?_, ?_⟩ <;> simp [determineBankRules]
  · rcases filterCompliant_rejected_mem deals rules d hmem hne with ⟨e, he, hed, hev⟩
    refine ⟨e, he, hed, ?_⟩
    rw [hev]
    exact hhead
  · intro hvalid
    exact hne (filterCompliant_valid_mem deals rules d hvalid)

/-- Witness for C6: a within-guidelines candidate whose LTV of 200 exceeds
the subprime cap of 120 is rejected with an LTV violation. -/
theorem C6_witness :
    (c6Cand ∈ [c6Cand]) ∧ (c6Cand.ltv > c6Rules.ltvCap) ∧
    ((∀ (m : ℤ) (l : ℚ) (t : String),
      ((determineBankRules m l t).mandatoryVsc = true ↔ 100000 < m) ∧
      ((determineBankRules m l t).mandatoryGap = true ↔ 110 < l)) ∧
     (∀ (m : ℤ) (l : ℚ),
      (determineBankRules m l "prime").ltvCap = 130 ∧
      (determineBankRules m l "near_prime").ltvCap = 125 ∧
      (determineBankRules m l "subprime").ltvCap = 120 ∧
      (determineBankRules m l "deep_subprime").ltvCap = 115) ∧
     (∃ e ∈ (filterCompliantDeals [c6Cand] c6Rules).rejectedDeals,
       e.deal = c6Cand ∧ ltvViolationString c6Cand c6Rules ∈ e.violations) ∧
     c6Cand ∉ (filterCompliantDeals [c6Cand] c6Rules).validDeals ∧
     ((filterCompliantDeals [c6Cand] c6Rules).validDeals ++
       (filterCompliantDeals [c6Cand] c6Rules).rejectedDeals.map RejectedDeal.deal).Perm
         [c6Cand]) :=
  ⟨List.mem_singleton.2 rfl, by with_unfolding_all decide,
    C6_compliance [c6Cand] c6Rules c6Cand (List.mem_singleton.2 rfl)
      (by with_unfolding_all decide)⟩

theorem insertionSort_nil_iff {α : Type} (r : α → α → Prop) [DecidableRel r] (l : List α) :
    List.insertionSort r l = [] ↔ l = [] := by
  constructor
  · intro h
    have hlen := (List.perm_insertionSort r l).length_eq
    rw [h] at hlen
    exact List.length_eq_zero.1 hlen.symm
  · intro h
    rw [h]
    rfl

/-- C3: runRehash's allCandidates is (a permutation of) the payment-window
filtered candidates when that set is non-empty, else the full candidate set;
it is sorted by net check descending with ties broken by payment proximity
ascending; bestDeal is its head, and is null exactly when the candidate list
is empty. -/
theorem C3_selection_ranking (currentYear : ℤ) (deal : DealInput) (lenders : List LenderConfig) :
    ((runRehash currentYear deal lenders).allCandidates).Perm
      (if ((rehashCandidates currentYear deal (assessRisk currentYear deal) lenders).filter
          (fun c => decide (c.payment ≥ deal.targetPayment - deal.paymentTolerance ∧
            c.payment ≤ deal.targetPayment + deal.paymentTolerance))) = [] then
        rehashCandidates currentYear deal (assessRisk currentYear deal) lenders
       else
        ((rehashCandidates currentYear deal (assessRisk currentYear deal) lenders).filter
          (fun c => decide (c.payment ≥ deal.targetPayment - deal.paymentTolerance ∧
            c.payment ≤ deal.targetPayment + deal.paymentTolerance)))) ∧
    List.Sorted (candLE deal.targetPayment) (runRehash currentYear deal lenders).allCandidates ∧
    List.Pairwise (fun a b => a.netCheckToDealer = b.netCheckToDealer →
      |a.payment - deal.targetPayment| ≤ |b.payment - deal.targetPayment|)
      (runRehash currentYear deal lenders).allCandidates ∧
    ((runRehash currentYear deal lenders).bestDeal =
      ((runRehash currentYear deal lenders).allCandidates).head?) ∧
    ((runRehash currentYear deal lenders).bestDeal = none ↔
      rehashCandidates currentYear deal (assessRisk currentYear deal) lenders = []) := by
  haveI : IsTotal DealCandidate (candLE deal.targetPayment) :=
    ⟨candLE_total deal.targetPayment⟩
  haveI : IsTrans DealCandidate (candLE deal.targetPayment) :=
    ⟨fun a b c => candLE_trans deal.targetPayment a b c⟩
  set C := rehashCandidates currentYear deal (assessRisk currentYear deal) lenders with hCdef
  set W := C.filter (fun c => decide (c.payment ≥ deal.targetPayment - deal.paymentTolerance ∧
    c.payment ≤ deal.targetPayment + deal.paymentTolerance)) with hWdef
  have hall : (runRehash currentYear deal lenders).allCandidates =
      List.insertionSort (candLE deal.targetPayment) (if W.length > 0 then W else C) := rfl
  have hbest : (runRehash currentYear deal lenders).bestDeal =
      (List.insertionSort (candLE deal.targetPayment)
        (if W.length > 0 then W else C)).head? := rfl
  have hpool : (if W.length > 0 then W else C) = (if W = [] then C else W) := by
    cases W with
    | nil => simp
    | cons a t => simp
  have hsorted : List.Sorted (candLE deal.targetPayment)
      (runRehash currentYear deal lenders).allCandidates := by
    rw [hall]
    exact List.sorted_insertionSort _ _
  refine ⟨?_, hsorted, ?_, ?_, ?_⟩
  · rw [hall, hpool]
    exact List.perm_insertionSort _ _
  · refine List.Pairwise.imp ?_ hsorted
    intro a b hab
    intro hnet
    rcases hab with h | ⟨_, h2⟩
    · rw [hnet] at h
      exact absurd h (lt_irrefl _)
    · exact h2
  · rw [hbest, hall]
  · rw [hbest, List.head?_eq_none_iff, insertionSort_nil_iff]
    constructor
    · intro hp
      by_cases hw : W = []
      · rw [hw] at hp
        simpa using hp
      · rw [if_pos (List.length_pos.2 hw)] at hp
        exact absurd hp hw
    · intro hc
      have hw : W = [] := by
        rw [hWdef, hc]
        rfl
      rw [hw, hc]
      simp
